import Mathlib

/-!
Verification development for the interactive routing/closure map component
(`src/MapComponent.jsx`).  The definitions below are a shallow embedding of
the component's routing/closure logic:

  * geographic coordinates are modelled as pairs of rationals `(lng, lat)`;
  * Leaflet layer objects are modelled as opaque natural-number handles;
  * the mutable refs of `RouteLayer` (`clickBuffer`, `avoidPolygons`,
    `colorIndex`) and the React state lists (`routeStats`, `closures`)
    become fields of an explicit session state, driven by an event step
    function (`stepEv`);
  * the asynchronous completion of a `fetchRoute` network call is an
    explicit `resolve` event, so the suspension of `handleClick` at
    `await fetchRoute(...)` is visible as an interleaving point;
  * JavaScript property access on `undefined` (the out-of-bounds registry
    accesses in `toggleRouteVisibility` / `deleteRoute` / `deleteClosure`)
    is modelled as `Except.error JsError.typeError`.
-/

/-- A geographic point `(longitude, latitude)`, as produced by
`[e.latlng.lng, e.latlng.lat]` in the click handler. -/
abbrev Point : Type := ℚ × ℚ

/-- GeoJSON polygon coordinates: a list of rings, each ring a list of
points.  This is the shape of the `coordinates` field produced by
`bufferLineToPolygon`. -/
abbrev PolyCoords : Type := List (List Point)

/-- The module-level constant `BUFFER = 0.0007` of `MapComponent.jsx`. -/
def BUFFER : ℚ := 7 / 10000

/-- A GeoJSON polygon object, as returned by `bufferLineToPolygon`:
`{ type: 'Polygon', coordinates: [[...]] }`. -/
structure Polygon where
  type : String
  coordinates : PolyCoords
deriving DecidableEq

/-- Transcription of `bufferLineToPolygon(p1, p2, buffer = BUFFER)`
(`MapComponent.jsx` lines 132-145).  In the source `buffer` defaults to
`BUFFER`; every call site in the component passes no explicit buffer, so
callers in this file pass `BUFFER` explicitly. -/
def bufferLineToPolygon (p1 p2 : Point) (buffer : ℚ) : Polygon :=
  let lng1 := p1.1
  let lat1 := p1.2
  let lng2 := p2.1
  let lat2 := p2.2
  { type := "Polygon"
    coordinates := [[
      (lng1 - buffer, lat1 - buffer),
      (lng1 + buffer, lat1 + buffer),
      (lng2 + buffer, lat2 + buffer),
      (lng2 - buffer, lat2 - buffer),
      (lng1 - buffer, lat1 - buffer)]] }

/-- Twice the signed shoelace area of a polygonal chain: the sum of the
cross terms over consecutive vertices.  For a closed ring this is twice the
enclosed signed area, so a ring has zero area exactly when this sum is 0. -/
def ringShoelace : List Point → ℚ
  | p :: q :: rest => (p.1 * q.2 - q.1 * p.2) + ringShoelace (q :: rest)
  | _ => 0

/-- The `avoid_polygons` value sent to the routing provider:
`{ type: 'MultiPolygon', coordinates: avoid }`. -/
structure AvoidPolygons where
  type : String
  coordinates : List PolyCoords
deriving DecidableEq

/-- The optional `options` object of the request body. -/
structure RouteOptions where
  avoid_polygons : AvoidPolygons
deriving DecidableEq

/-- The request body built inside `fetchRoute` (`MapComponent.jsx` lines
36-46): `coordinates: [start, end]`, and an `options` key that is present
only when `avoid.length > 0` (spreading `false` adds no key). -/
structure RouteBody where
  coordinates : List Point
  options : Option RouteOptions
deriving DecidableEq

/-- Transcription of the body construction in `fetchRoute(avoid, color)`:
`{ coordinates: [start, end], ...(avoid.length > 0 && { options:
{ avoid_polygons: { type: 'MultiPolygon', coordinates: avoid } } }) }`.
The source names the second point `end`, which is a reserved word here. -/
def fetchRouteBody (start dest : Point) (avoid : List PolyCoords) : RouteBody :=
  { coordinates := [start, dest]
    options :=
      if avoid.length > 0 then
        some { avoid_polygons := { type := "MultiPolygon", coordinates := avoid } }
      else
        none }

/-- One entry of the `routeStats` state list, as appended through
`onAddStats` in `fetchRoute`: `{ color, distance, duration, layer,
visible }`.  `distance` and `duration` hold the numeric values
`seg.distance / 1000` and `seg.duration / 60` (the source additionally
formats them with `toFixed`, a display concern not modelled).  `layer` is
the Leaflet polyline handle; it is an `Option` because JavaScript lets the
field be absent (`undefined`), which the registry functions test with
`if (route.layer)`. -/
structure RouteRecord where
  color : String
  distance : ℚ
  duration : ℚ
  layer : Option ℕ
  visible : Bool
deriving DecidableEq

/-- One entry of the `closures` state list, as appended through
`onAddClosure`: `{ layer: red, coords: [p1, p2], distance }`.  The red
polyline handle is always an object (hence always truthy), so `layer` is a
plain handle here. -/
structure ClosureRecord where
  layer : ℕ
  coords : Point × Point
  distance : ℚ
deriving DecidableEq

/-- The JavaScript error raised by reading a property of `undefined`, which
is what happens when `updated[index]` is accessed out of bounds in the
registry functions. -/
inductive JsError where
  | typeError
deriving DecidableEq

/-- Leaflet `map.removeLayer(l)`: detaches `l` if attached, otherwise a
no-op.  The set of attached layers is modelled as a list of handles. -/
def removeLayer (mapLayers : List ℕ) (l : ℕ) : List ℕ :=
  mapLayers.filter (fun x => x ≠ l)

/-- Leaflet `layer.addTo(map)`: attaches the handle to the map. -/
def addToMap (mapLayers : List ℕ) (l : ℕ) : List ℕ :=
  mapLayers ++ [l]

/-- Transcription of `toggleRouteVisibility(index)` (`MapComponent.jsx`
lines 177-189).  `const route = updated[index]` yields `undefined` when
`index` is out of bounds, and the subsequent `route.layer` access throws a
`TypeError`; otherwise, when a layer is present the map is updated
according to the current `visible` flag, and the flag is flipped in the
returned list regardless of whether a layer was present. -/
def toggleRouteVisibility (mapLayers : List ℕ) (routeStats : List RouteRecord)
    (index : ℕ) : Except JsError (List RouteRecord × List ℕ) :=
  match routeStats[index]? with
  | none => Except.error JsError.typeError
  | some route =>
    let mapLayers2 :=
      match route.layer with
      | some l => if route.visible then removeLayer mapLayers l else addToMap mapLayers l
      | none => mapLayers
    Except.ok (routeStats.set index { route with visible := !route.visible }, mapLayers2)

/-- Transcription of `deleteRoute(index)` (`MapComponent.jsx` lines
191-199): out-of-bounds access throws; otherwise the layer (if present) is
removed from the map and the record is spliced out. -/
def deleteRoute (mapLayers : List ℕ) (routeStats : List RouteRecord)
    (index : ℕ) : Except JsError (List RouteRecord × List ℕ) :=
  match routeStats[index]? with
  | none => Except.error JsError.typeError
  | some route =>
    let mapLayers2 :=
      match route.layer with
      | some l => removeLayer mapLayers l
      | none => mapLayers
    Except.ok (routeStats.eraseIdx index, mapLayers2)

/-- Transcription of `deleteClosure(index)` (`MapComponent.jsx` lines
201-209): out-of-bounds access throws; otherwise the closure's red segment
is removed from the map (its `layer` is always a truthy object) and the
record is spliced out.  Note this function only touches the `closures`
state list; the `avoidPolygons` ref of `RouteLayer` is not reachable from
here and is left as is. -/
def deleteClosure (mapLayers : List ℕ) (closures : List ClosureRecord)
    (index : ℕ) : Except JsError (List ClosureRecord × List ℕ) :=
  match closures[index]? with
  | none => Except.error JsError.typeError
  | some closure =>
    Except.ok (closures.eraseIdx index, removeLayer mapLayers closure.layer)

/-- React's commit semantics for a `setState` updater: when the updater
throws, no new state is committed and the previous state stands. -/
def commitUpdate {σ : Type} (prev : σ) : Except JsError σ → σ
  | Except.ok next => next
  | Except.error _ => prev

/-- The fixed palette `['blue', 'green', 'purple', 'orange', 'brown',
'darkcyan']` declared in `RouteLayer`. -/
def colorPalette : List String :=
  ["blue", "green", "purple", "orange", "brown", "darkcyan"]

/-- An in-flight `fetchRoute` call: its `color` argument, and whether it
was issued from the closure gesture in `handleClick` (in which case the
continuation after `await fetchRoute(...)` resets `clickBuffer` to `[]`)
or from the initial `fetchRoute([], 'blue')` call (no such continuation). -/
structure PendingFetch where
  color : String
  fromGesture : Bool
deriving DecidableEq

/-- The session state of one mounted `RouteLayer` together with the
`MapComponent` state it feeds: the refs `clickBuffer`, `avoidPolygons`,
`colorIndex`, the state lists `routeStats` and `closures`, the in-flight
fetch (if any), the avoidance list passed to the most recent `fetchRoute`
call, and a counter allocating fresh Leaflet layer handles. -/
structure SessionState where
  clickBuffer : List Point
  avoidPolygons : List PolyCoords
  colorIndex : ℕ
  routeStats : List RouteRecord
  closures : List ClosureRecord
  pending : Option PendingFetch
  lastFetchAvoid : Option (List PolyCoords)
  nextLayer : ℕ
deriving DecidableEq

/-- The empty session right after `RouteLayer` mounts, before its effect
runs. -/
def initialState : SessionState :=
  { clickBuffer := []
    avoidPolygons := []
    colorIndex := 0
    routeStats := []
    closures := []
    pending := none
    lastFetchAvoid := some []
    nextLayer := 0 }

/-- The synchronous start of the initial `fetchRoute([], 'blue')` issued by
the `RouteLayer` effect once `start` and `end` are set: a fetch with empty
avoidance and the literal color `'blue'` goes in flight. -/
def initFetch (s : SessionState) : SessionState :=
  { s with pending := some { color := "blue", fromGesture := false }
           lastFetchAvoid := some [] }

/-- Events driving the session: a map click (dispatched to `handleClick`),
the settlement of the in-flight `fetchRoute` network call (`ok = true`
models a successful response carrying `seg.distance` and `seg.duration`;
`ok = false` models the `catch` branch), and the `deleteClosure(i)` intent
from the UI list. -/
inductive Ev where
  | click (p : Point)
  | resolve (ok : Bool) (distM durS : ℚ)
  | deleteClosureEv (i : ℕ)
deriving DecidableEq

/-- One step of the session, transcribing `handleClick` (`MapComponent.jsx`
lines 93-117), the body of `fetchRoute` after the `await axios.post`
(lines 60-86) and `deleteClosure` (lines 201-209).

`click p`: the point is pushed onto `clickBuffer`; when the buffer then
holds exactly two points the gesture completes synchronously up to the
`await`: the red segment is rendered (consuming a layer handle), the
closure record is appended via `onAddClosure` (its distance comes from the
map collaborator's `map.distance`, modelled by the parameter `d`, divided
by 1000), the buffered polygon is pushed onto `avoidPolygons`, the color
index is pre-incremented and the fetch goes in flight with the whole
accumulated avoidance list.  The buffer is NOT cleared here: the
`clickBuffer.current = []` assignment sits after the `await`.

`resolve ok`: the awaited call settles.  On success a route record with the
pending color, `visible: true` and a freshly attached polyline handle is
appended (`onAddStats`); on failure (`catch`) nothing is appended and the
error is only logged, so the step is total — the controller does not
crash.  Either way, if the fetch came from a gesture, the continuation of
`handleClick` then resets `clickBuffer` to `[]`.  (The progressive-reveal
interval and `fitBounds` started on success are modelled separately by
`fetchRouteSuccessEffects` and `AnimTimer`.)

`deleteClosureEv i`: the `closures` list is spliced at `i` (the red
segment's map detachment does not touch any field of this state, and an
out-of-bounds throw is modelled by the standalone `deleteClosure`).  The
`avoidPolygons` ref is deliberately left untouched: `deleteClosure` lives
in `MapComponent` and has no access to the ref inside `RouteLayer`. -/
def stepEv (d : Point → Point → ℚ) (s : SessionState) : Ev → SessionState
  | Ev.click p =>
    match s.clickBuffer ++ [p] with
    | [p1, p2] =>
      let avoid := s.avoidPolygons ++ [(bufferLineToPolygon p1 p2 BUFFER).coordinates]
      let ci := s.colorIndex + 1
      { clickBuffer := [p1, p2]
        avoidPolygons := avoid
        colorIndex := ci
        routeStats := s.routeStats
        closures := s.closures ++
          [{ layer := s.nextLayer, coords := (p1, p2), distance := d p1 p2 / 1000 }]
        pending := some { color := colorPalette.getD (ci % colorPalette.length) ""
                          fromGesture := true }
        lastFetchAvoid := some avoid
        nextLayer := s.nextLayer + 1 }
    | buf => { s with clickBuffer := buf }
  | Ev.resolve ok distM durS =>
    match s.pending with
    | none => s
    | some pf =>
      let routeStats2 :=
        if ok then
          s.routeStats ++
            [{ color := pf.color, distance := distM / 1000, duration := durS / 60,
               layer := some s.nextLayer, visible := true }]
        else s.routeStats
      { s with routeStats := routeStats2
               nextLayer := if ok then s.nextLayer + 1 else s.nextLayer
               pending := none
               clickBuffer := if pf.fromGesture then [] else s.clickBuffer }
  | Ev.deleteClosureEv i =>
    { s with closures := s.closures.eraseIdx i }

/-- Folding a list of events through `stepEv`. -/
def runEvents (d : Point → Point → ℚ) (s : SessionState) (evs : List Ev) : SessionState :=
  evs.foldl (stepEv d) s

/-- One complete closure gesture: two clicks followed by the settlement of
the recomputation they trigger. -/
structure Gesture where
  p1 : Point
  p2 : Point
  ok : Bool
  distM : ℚ
  durS : ℚ

/-- Run one gesture from a state whose click buffer is empty. -/
def runGesture (d : Point → Point → ℚ) (s : SessionState) (g : Gesture) : SessionState :=
  stepEv d (stepEv d (stepEv d s (Ev.click g.p1)) (Ev.click g.p2))
    (Ev.resolve g.ok g.distM g.durS)

/-- Run a list of gestures in order. -/
def runGestures (d : Point → Point → ℚ) : SessionState → List Gesture → SessionState
  | s, [] => s
  | s, g :: gs => runGestures d (runGesture d s g) gs

/-- Claim C3: for all input points `p1 = (lng1, lat1)`, `p2 = (lng2, lat2)`
and margin `b`, `bufferLineToPolygon` returns a polygon whose single ring is
exactly the five vertices `(lng1-b, lat1-b), (lng1+b, lat1+b),
(lng2+b, lat2+b), (lng2-b, lat2-b), (lng1-b, lat1-b)` in that order, with
identical first and last vertex; on degenerate input `p1 = p2` the ring has
zero shoelace area, and the function is total, so there is no error case. -/
theorem c3_buffer_polygon_shape (p1 p2 : Point) (b : ℚ) :
    (bufferLineToPolygon p1 p2 b).type = "Polygon"
    ∧ (bufferLineToPolygon p1 p2 b).coordinates =
        [[(p1.1 - b, p1.2 - b), (p1.1 + b, p1.2 + b), (p2.1 + b, p2.2 + b),
          (p2.1 - b, p2.2 - b), (p1.1 - b, p1.2 - b)]]
    ∧ ((bufferLineToPolygon p1 p2 b).coordinates.headD []).length = 5
    ∧ ((bufferLineToPolygon p1 p2 b).coordinates.headD []).head? =
        some (p1.1 - b, p1.2 - b)
    ∧ ((bufferLineToPolygon p1 p2 b).coordinates.headD []).getLast? =
        some (p1.1 - b, p1.2 - b)
    ∧ (p1 = p2 →
        ringShoelace ((bufferLineToPolygon p1 p2 b).coordinates.headD []) = 0) := by
  refine ⟨rfl, rfl, rfl, rfl, rfl, ?_⟩
  intro h
  subst h
  obtain ⟨x, y⟩ := p1
  simp only [bufferLineToPolygon, ringShoelace]
  ring

/-- Witness for `c3_buffer_polygon_shape` at the degenerate input
`p1 = p2 = (0, 0)`, `b = 1`, discharging the `p1 = p2` hypothesis of the
zero-area conjunct. -/
theorem c3_buffer_polygon_shape_witness :
    ((0, 0) : Point) = ((0, 0) : Point)
    ∧ ringShoelace
        ((bufferLineToPolygon ((0 : ℚ), (0 : ℚ)) ((0 : ℚ), (0 : ℚ)) 1).coordinates.headD []) = 0 :=
  ⟨rfl, (c3_buffer_polygon_shape ((0 : ℚ), (0 : ℚ)) ((0 : ℚ), (0 : ℚ)) 1).2.2.2.2.2 rfl⟩

/-- Claim C4: for every origin, destination and avoidance sequence, the
request body always carries `[start, dest]` as its coordinates; when the
avoidance sequence is empty the body has no `options` key at all (omission,
not an empty list); when it is non-empty the body wraps the polygons as a
`MultiPolygon` whose coordinate list is the input sequence itself, order
preserved. -/
theorem c4_fetchRouteBody_avoidance (start dest : Point) (avoid : List PolyCoords) :
    (fetchRouteBody start dest avoid).coordinates = [start, dest]
    ∧ (avoid = [] → (fetchRouteBody start dest avoid).options = none)
    ∧ (avoid ≠ [] →
        (fetchRouteBody start dest avoid).options =
          some { avoid_polygons := { type := "MultiPolygon", coordinates := avoid } }) := by
  refine ⟨rfl, ?_, ?_⟩
  · intro h
    subst h
    rfl
  · intro h
    have hlen : 0 < avoid.length := List.length_pos.mpr h
    simp [fetchRouteBody, hlen]

/-- Witness for `c4_fetchRouteBody_avoidance`, exercising both the empty
branch (no `options` key) and a non-empty branch (wrapped `MultiPolygon`)
at concrete inputs. -/
theorem c4_fetchRouteBody_avoidance_witness :
    (([] : List PolyCoords) = []
      ∧ (fetchRouteBody ((0 : ℚ), (0 : ℚ)) ((1 : ℚ), (1 : ℚ)) []).options = none)
    ∧ (([[[((2 : ℚ), (3 : ℚ))]]] : List PolyCoords) ≠ []
      ∧ (fetchRouteBody ((0 : ℚ), (0 : ℚ)) ((1 : ℚ), (1 : ℚ)) [[[((2 : ℚ), (3 : ℚ))]]]).options =
          some { avoid_polygons :=
                  { type := "MultiPolygon", coordinates := [[[((2 : ℚ), (3 : ℚ))]]] } }) :=
  ⟨⟨rfl, (c4_fetchRouteBody_avoidance ((0 : ℚ), (0 : ℚ)) ((1 : ℚ), (1 : ℚ)) []).2.1 rfl⟩,
   ⟨by simp,
    (c4_fetchRouteBody_avoidance ((0 : ℚ), (0 : ℚ)) ((1 : ℚ), (1 : ℚ))
        [[[((2 : ℚ), (3 : ℚ))]]]).2.2 (by simp)⟩⟩

/-- Helper invariant: running any sequence of complete gestures from a
state with an empty click buffer leaves the click buffer empty (the
continuation after each awaited fetch resets it) and advances the color
index by exactly one per gesture, successful or not. -/
lemma runGestures_clickBuffer_colorIndex (d : Point → Point → ℚ) (gs : List Gesture) :
    ∀ s : SessionState, s.clickBuffer = [] →
      (runGestures d s gs).clickBuffer = []
      ∧ (runGestures d s gs).colorIndex = s.colorIndex + gs.length := by
  induction gs with
  | nil =>
    intro s h
    exact ⟨h, rfl⟩
  | cons g gs ih =>
    intro s h
    have hstep : (runGesture d s g).clickBuffer = []
        ∧ (runGesture d s g).colorIndex = s.colorIndex + 1 := by
      obtain ⟨buf, av, ci, rs, cs, pend, lfa, nl⟩ := s
      simp only at h
      subst h
      exact ⟨rfl, rfl⟩
    obtain ⟨h1, h2⟩ := ih (runGesture d s g) hstep.1
    refine ⟨h1, ?_⟩
    show (runGestures d (runGesture d s g) gs).colorIndex = s.colorIndex + (g :: gs).length
    rw [h2, hstep.2]
    simp only [List.length_cons]
    omega

/-- Claim C5: completing a closure gesture whose recomputation fails leaves
the closure registered (the `closures` list grows by exactly the new
record, red segment handle included) while the route registry does not
grow.  The failure is non-fatal by construction: the `catch` branch of
`fetchRoute` makes the `resolve false` step total, so no state is lost. -/
theorem c5_failed_recompute_keeps_closure (d : Point → Point → ℚ) (s : SessionState)
    (p1 p2 : Point) (distM durS : ℚ) (h : s.clickBuffer = []) :
    (runGesture d s { p1 := p1, p2 := p2, ok := false, distM := distM, durS := durS }).closures =
        s.closures ++ [{ layer := s.nextLayer, coords := (p1, p2), distance := d p1 p2 / 1000 }]
    ∧ (runGesture d s { p1 := p1, p2 := p2, ok := false, distM := distM, durS := durS }).closures.length =
        s.closures.length + 1
    ∧ (runGesture d s { p1 := p1, p2 := p2, ok := false, distM := distM, durS := durS }).routeStats =
        s.routeStats := by
  obtain ⟨buf, av, ci, rs, cs, pend, lfa, nl⟩ := s
  simp only at h
  subst h
  refine ⟨rfl, ?_, rfl⟩
  show (cs ++ [({ layer := nl, coords := (p1, p2), distance := d p1 p2 / 1000 } :
      ClosureRecord)]).length = cs.length + 1
  simp

/-- Witness for `c5_failed_recompute_keeps_closure` at the empty initial
session and a concrete failed gesture. -/
theorem c5_failed_recompute_keeps_closure_witness :
    initialState.clickBuffer = []
    ∧ ((runGesture (fun _ _ => 0) initialState
          { p1 := ((0 : ℚ), (0 : ℚ)), p2 := ((1 : ℚ), (1 : ℚ)), ok := false,
            distM := 0, durS := 0 }).closures =
        initialState.closures ++
          [{ layer := initialState.nextLayer, coords := (((0 : ℚ), (0 : ℚ)), ((1 : ℚ), (1 : ℚ))),
             distance := (fun (_ _ : Point) => (0 : ℚ)) ((0 : ℚ), (0 : ℚ)) ((1 : ℚ), (1 : ℚ)) / 1000 }]
      ∧ (runGesture (fun _ _ => 0) initialState
          { p1 := ((0 : ℚ), (0 : ℚ)), p2 := ((1 : ℚ), (1 : ℚ)), ok := false,
            distM := 0, durS := 0 }).closures.length = initialState.closures.length + 1
      ∧ (runGesture (fun _ _ => 0) initialState
          { p1 := ((0 : ℚ), (0 : ℚ)), p2 := ((1 : ℚ), (1 : ℚ)), ok := false,
            distM := 0, durS := 0 }).routeStats = initialState.routeStats) :=
  ⟨rfl,
   c5_failed_recompute_keeps_closure (fun _ _ => 0) initialState
     ((0 : ℚ), (0 : ℚ)) ((1 : ℚ), (1 : ℚ)) 0 0 rfl⟩

/-- Claim C6 counterexample: after the initial route resolves, a first
gesture whose recomputation fails followed by a second gesture whose
recomputation succeeds yields exactly one successful closure-triggered
recomputation (n = 1), and its route record carries the color `purple`
(palette entry 2), not palette entry `1 mod 6 = 1` (`green`) as the claim
requires: the color index advances on every gesture, not on every
successful recomputation. -/
theorem c6_success_palette_counterexample :
    (runEvents (fun _ _ => 0)
        (stepEv (fun _ _ => 0) (initFetch initialState) (Ev.resolve true 0 0))
        [Ev.click ((0 : ℚ), (0 : ℚ)), Ev.click ((1 : ℚ), (1 : ℚ)), Ev.resolve false 0 0,
         Ev.click ((2 : ℚ), (2 : ℚ)), Ev.click ((3 : ℚ), (3 : ℚ)), Ev.resolve true 0 0]).routeStats.map
        (fun r => r.color) = ["blue", "purple"]
    ∧ (runEvents (fun _ _ => 0)
        (stepEv (fun _ _ => 0) (initFetch initialState) (Ev.resolve true 0 0))
        [Ev.click ((0 : ℚ), (0 : ℚ)), Ev.click ((1 : ℚ), (1 : ℚ)), Ev.resolve false 0 0,
         Ev.click ((2 : ℚ), (2 : ℚ)), Ev.click ((3 : ℚ), (3 : ℚ)), Ev.resolve true 0 0]).closures.length = 2
    ∧ colorPalette.getD (1 % colorPalette.length) "" = "green"
    ∧ ("purple" : String) ≠ "green" := by
  refine ⟨rfl, rfl, rfl, ?_⟩
  decide

/-- Claim C6, amended: the color index advances once per completed closure
gesture, whether or not the triggered recomputation succeeds; the n-th
closure gesture is assigned palette entry `n mod 6` of `[blue, green,
purple, orange, brown, darkcyan]`, starting from entry 1 for the first
gesture, while the initial unconstrained route uses the fixed color `blue`,
which is palette entry 0.  Consequently the n-th successful recomputation
carries entry `n mod 6` only when no earlier recomputation failed. -/
theorem c6_palette_per_gesture (d : Point → Point → ℚ) (gs : List Gesture) (p1 p2 : Point) :
    (initFetch initialState).pending = some { color := "blue", fromGesture := false }
    ∧ colorPalette.getD 0 "" = "blue"
    ∧ (stepEv d
        (stepEv d
          (runGestures d (stepEv d (initFetch initialState) (Ev.resolve true 0 0)) gs)
          (Ev.click p1))
        (Ev.click p2)).pending =
      some { color := colorPalette.getD ((gs.length + 1) % colorPalette.length) ""
             fromGesture := true } := by
  refine ⟨rfl, rfl, ?_⟩
  obtain ⟨hbuf, hci⟩ :=
    runGestures_clickBuffer_colorIndex d gs
      (stepEv d (initFetch initialState) (Ev.resolve true 0 0)) rfl
  rw [show (stepEv d (initFetch initialState) (Ev.resolve true 0 0)).colorIndex = 0 from rfl,
    Nat.zero_add] at hci
  generalize hgen :
    runGestures d (stepEv d (initFetch initialState) (Ev.resolve true 0 0)) gs = s
      at hbuf hci ⊢
  obtain ⟨buf, av, ci, rs, cs, pend, lfa, nl⟩ := s
  simp only at hbuf hci
  subst hbuf
  subst hci
  rfl

/-- Claim C8 counterexample: on a route record whose visual handle is
absent (`layer` undefined) and which is marked visible,
`toggleRouteVisibility` does not signal any error: it returns normally,
silently flips the `visible` flag to `false`, and performs no map
operation (the attached-layer list stays empty).  This refutes the claim
that a missing handle is reported as a no-op error. -/
theorem c8_toggle_silent_flip_counterexample :
    toggleRouteVisibility []
        [{ color := "blue", distance := 0, duration := 0, layer := none, visible := true }] 0 =
      Except.ok
        ([{ color := "blue", distance := 0, duration := 0, layer := none, visible := false }],
         []) := by
  rfl

/-- Claim C8, amended: when the record at `index` exists but carries no
visual handle (`layer` undefined), `toggleRouteVisibility` silently flips
the `visible` flag and leaves the map untouched; no error is signaled.
The defensive `if (route.layer)` guard in the source skips the map update
but the flag assignment runs unconditionally. -/
theorem c8_toggle_missing_layer_silent (mapLayers : List ℕ)
    (routeStats : List RouteRecord) (index : ℕ) (r : RouteRecord)
    (h1 : routeStats[index]? = some r) (h2 : r.layer = none) :
    toggleRouteVisibility mapLayers routeStats index =
      Except.ok (routeStats.set index { r with visible := !r.visible }, mapLayers) := by
  simp [toggleRouteVisibility, h1, h2]

/-- Witness for `c8_toggle_missing_layer_silent` at a concrete one-record
registry whose record has no layer. -/
theorem c8_toggle_missing_layer_silent_witness :
    ([{ color := "green", distance := 1, duration := 2, layer := none,
        visible := false }] : List RouteRecord)[0]? =
        some { color := "green", distance := 1, duration := 2, layer := none,
               visible := false }
    ∧ ({ color := "green", distance := 1, duration := 2, layer := none,
         visible := false } : RouteRecord).layer = none
    ∧ toggleRouteVisibility [7]
        [{ color := "green", distance := 1, duration := 2, layer := none,
           visible := false }] 0 =
        Except.ok
          ([{ color := "green", distance := 1, duration := 2, layer := none,
              visible := true }], [7]) :=
  ⟨rfl, rfl,
   c8_toggle_missing_layer_silent [7]
     [{ color := "green", distance := 1, duration := 2, layer := none, visible := false }]
     0 _ rfl rfl⟩

/-- Claim C9: for every index out of bounds of the respective registry,
each of `toggleRouteVisibility`, `deleteRoute` and `deleteClosure` signals
an error (the `TypeError` thrown by reading a property of `undefined`)
rather than silently succeeding, and under React's commit semantics the
thrown updater leaves the registry and the map unchanged. -/
theorem c9_out_of_bounds_signals_error (mapLayers : List ℕ)
    (routeStats : List RouteRecord) (closures : List ClosureRecord) (i j : ℕ)
    (h1 : routeStats.length ≤ i) (h2 : closures.length ≤ j) :
    toggleRouteVisibility mapLayers routeStats i = Except.error JsError.typeError
    ∧ deleteRoute mapLayers routeStats i = Except.error JsError.typeError
    ∧ deleteClosure mapLayers closures j = Except.error JsError.typeError
    ∧ commitUpdate (routeStats, mapLayers) (toggleRouteVisibility mapLayers routeStats i) =
        (routeStats, mapLayers)
    ∧ commitUpdate (routeStats, mapLayers) (deleteRoute mapLayers routeStats i) =
        (routeStats, mapLayers)
    ∧ commitUpdate (closures, mapLayers) (deleteClosure mapLayers closures j) =
        (closures, mapLayers) := by
  have hr : routeStats[i]? = none := List.getElem?_eq_none h1
  have hc : closures[j]? = none := List.getElem?_eq_none h2
  refine ⟨?_, ?_, ?_, ?_, ?_, ?_⟩ <;>
    simp [toggleRouteVisibility, deleteRoute, deleteClosure, commitUpdate, hr, hc]

/-- Witness for `c9_out_of_bounds_signals_error` on empty registries with
index 0, which is out of bounds for both. -/
theorem c9_out_of_bounds_signals_error_witness :
    ([] : List RouteRecord).length ≤ 0
    ∧ ([] : List ClosureRecord).length ≤ 0
    ∧ toggleRouteVisibility [] [] 0 = Except.error JsError.typeError
    ∧ deleteRoute [] [] 0 = Except.error JsError.typeError
    ∧ deleteClosure [] [] 0 = Except.error JsError.typeError :=
  ⟨Nat.le_refl 0, Nat.le_refl 0,
   (c9_out_of_bounds_signals_error [] [] [] 0 0 (Nat.le_refl 0) (Nat.le_refl 0)).1,
   (c9_out_of_bounds_signals_error [] [] [] 0 0 (Nat.le_refl 0) (Nat.le_refl 0)).2.1,
   (c9_out_of_bounds_signals_error [] [] [] 0 0 (Nat.le_refl 0) (Nat.le_refl 0)).2.2.1⟩

/-- Claim C1 evaluation at its failing input: two closures are added and
resolved, the closure at index 0 is then deleted, and a third gesture is
completed.  The registered closures are the two expected ones, but the
accumulated avoidance fed into the third recomputation still holds all
three polygons in insertion order — the deleted closure's polygon
(buffered from `(0,0)-(1,1)`) is still at position 0, because
`deleteClosure` splices only the `closures` state and cannot reach the
`avoidPolygons` ref inside `RouteLayer`. -/
theorem c1_deleted_closure_still_fed :
    (runEvents (fun _ _ => 0)
        (stepEv (fun _ _ => 0) (initFetch initialState) (Ev.resolve true 0 0))
        [Ev.click ((0 : ℚ), (0 : ℚ)), Ev.click ((1 : ℚ), (1 : ℚ)), Ev.resolve true 0 0,
         Ev.click ((2 : ℚ), (2 : ℚ)), Ev.click ((3 : ℚ), (3 : ℚ)), Ev.resolve true 0 0,
         Ev.deleteClosureEv 0,
         Ev.click ((4 : ℚ), (4 : ℚ)), Ev.click ((5 : ℚ), (5 : ℚ))]).closures.map
        (fun c => c.coords) =
      [((((2 : ℚ), (2 : ℚ))), (((3 : ℚ), (3 : ℚ)))), ((((4 : ℚ), (4 : ℚ))), (((5 : ℚ), (5 : ℚ))))]
    ∧ (runEvents (fun _ _ => 0)
        (stepEv (fun _ _ => 0) (initFetch initialState) (Ev.resolve true 0 0))
        [Ev.click ((0 : ℚ), (0 : ℚ)), Ev.click ((1 : ℚ), (1 : ℚ)), Ev.resolve true 0 0,
         Ev.click ((2 : ℚ), (2 : ℚ)), Ev.click ((3 : ℚ), (3 : ℚ)), Ev.resolve true 0 0,
         Ev.deleteClosureEv 0,
         Ev.click ((4 : ℚ), (4 : ℚ)), Ev.click ((5 : ℚ), (5 : ℚ))]).lastFetchAvoid =
      some
        [(bufferLineToPolygon ((0 : ℚ), (0 : ℚ)) ((1 : ℚ), (1 : ℚ)) BUFFER).coordinates,
         (bufferLineToPolygon ((2 : ℚ), (2 : ℚ)) ((3 : ℚ), (3 : ℚ)) BUFFER).coordinates,
         (bufferLineToPolygon ((4 : ℚ), (4 : ℚ)) ((5 : ℚ), (5 : ℚ)) BUFFER).coordinates]
    ∧ (runEvents (fun _ _ => 0)
        (stepEv (fun _ _ => 0) (initFetch initialState) (Ev.resolve true 0 0))
        [Ev.click ((0 : ℚ), (0 : ℚ)), Ev.click ((1 : ℚ), (1 : ℚ)), Ev.resolve true 0 0,
         Ev.click ((2 : ℚ), (2 : ℚ)), Ev.click ((3 : ℚ), (3 : ℚ)), Ev.resolve true 0 0,
         Ev.deleteClosureEv 0,
         Ev.click ((4 : ℚ), (4 : ℚ)), Ev.click ((5 : ℚ), (5 : ℚ))]).avoidPolygons.length = 3 :=
  ⟨rfl, rfl, rfl⟩

/-- Claim C2 evaluation at its failing input: clicks at `(0,0)` and `(1,1)`
complete a gesture whose recomputation goes in flight; a third click at
`(2,2)` arrives during the suspension and is buffered (`clickBuffer` holds
three points while the fetch is pending); when the fetch resolves, the
continuation of `handleClick` resets the buffer to `[]`, discarding the
third click.  Two further clicks then form the next gesture, so the
closures ever created pair `(0,0)` with `(1,1)` and `(3,3)` with `(4,4)`;
the click at `(2,2)` participates in no closure gesture. -/
theorem c2_click_during_suspension_dropped :
    (runEvents (fun _ _ => 0)
        (stepEv (fun _ _ => 0) (initFetch initialState) (Ev.resolve true 0 0))
        [Ev.click ((0 : ℚ), (0 : ℚ)), Ev.click ((1 : ℚ), (1 : ℚ)),
         Ev.click ((2 : ℚ), (2 : ℚ))]).clickBuffer =
      [((0 : ℚ), (0 : ℚ)), ((1 : ℚ), (1 : ℚ)), ((2 : ℚ), (2 : ℚ))]
    ∧ (runEvents (fun _ _ => 0)
        (stepEv (fun _ _ => 0) (initFetch initialState) (Ev.resolve true 0 0))
        [Ev.click ((0 : ℚ), (0 : ℚ)), Ev.click ((1 : ℚ), (1 : ℚ)),
         Ev.click ((2 : ℚ), (2 : ℚ))]).pending =
      some { color := "green", fromGesture := true }
    ∧ (runEvents (fun _ _ => 0)
        (stepEv (fun _ _ => 0) (initFetch initialState) (Ev.resolve true 0 0))
        [Ev.click ((0 : ℚ), (0 : ℚ)), Ev.click ((1 : ℚ), (1 : ℚ)),
         Ev.click ((2 : ℚ), (2 : ℚ)), Ev.resolve true 0 0]).clickBuffer = []
    ∧ (runEvents (fun _ _ => 0)
        (stepEv (fun _ _ => 0) (initFetch initialState) (Ev.resolve true 0 0))
        [Ev.click ((0 : ℚ), (0 : ℚ)), Ev.click ((1 : ℚ), (1 : ℚ)),
         Ev.click ((2 : ℚ), (2 : ℚ)), Ev.resolve true 0 0,
         Ev.click ((3 : ℚ), (3 : ℚ)), Ev.click ((4 : ℚ), (4 : ℚ)),
         Ev.resolve true 0 0]).closures.map (fun c => c.coords) =
      [((((0 : ℚ), (0 : ℚ))), (((1 : ℚ), (1 : ℚ)))),
       ((((3 : ℚ), (3 : ℚ))), (((4 : ℚ), (4 : ℚ))))] :=
  ⟨rfl, rfl, rfl, rfl⟩

/-- The ordered observable actions of the success branch of `fetchRoute`
(`MapComponent.jsx` lines 60-83): attach the freshly created polyline to
the map (`L.polyline([], { color, weight: 5 }).addTo(map)`), start the
progressive-reveal interval, fit the view bounds, then append the route
record through `onAddStats`. -/
inductive RouteEffect where
  | attachLayer (layer : ℕ) (color : String)
  | startAnimationTimer (layer : ℕ)
  | fitBounds
  | appendRoute (r : RouteRecord)
deriving DecidableEq

/-- Transcription of the success branch of `fetchRoute(avoid, color)` as
its sequence of effects, with `layer` the handle of the polyline it
creates and `distM`, `durS` the `seg.distance` and `seg.duration` of the
response. -/
def fetchRouteSuccessEffects (color : String) (layer : ℕ) (distM durS : ℚ) :
    List RouteEffect :=
  [RouteEffect.attachLayer layer color,
   RouteEffect.startAnimationTimer layer,
   RouteEffect.fitBounds,
   RouteEffect.appendRoute
     { color := color, distance := distM / 1000, duration := durS / 60,
       layer := some layer, visible := true }]

/-- Claim C10: on every successful fetch, the route record is appended with
`visible = true` and with its polyline handle already attached: the attach
effect is the first action and the append is the last, so the layer is on
the map before the record enters the registry, and a single subsequent
toggle will detach it. -/
theorem c10_route_attached_before_append (color : String) (layer : ℕ) (distM durS : ℚ) :
    ∃ r : RouteRecord,
      fetchRouteSuccessEffects color layer distM durS =
        [RouteEffect.attachLayer layer color,
         RouteEffect.startAnimationTimer layer,
         RouteEffect.fitBounds,
         RouteEffect.appendRoute r]
      ∧ r.visible = true
      ∧ r.layer = some layer
      ∧ r.color = color :=
  ⟨{ color := color, distance := distM / 1000, duration := durS / 60,
     layer := some layer, visible := true }, rfl, rfl, rfl, rfl⟩

/-- The progressive-reveal interval of `fetchRoute`: `index` is the local
counter and `total` the length of the decoded coordinate list.  A tick with
`index < total` calls `animatedLine.addLatLng(coords[index++])` — it writes
one point to its rendering target and stays armed; otherwise the callback
clears its own interval. -/
structure AnimTimer where
  index : ℕ
  total : ℕ
deriving DecidableEq

/-- One firing of the interval callback: returns the timer if it stays
armed (`none` when it cleared itself) and whether a point was written to
the polyline. -/
def tickAnimTimer (t : AnimTimer) : Option AnimTimer × Bool :=
  if t.index < t.total then (some { t with index := t.index + 1 }, true)
  else (none, false)

/-- The teardown-relevant resources owned by a mounted `RouteLayer`: the
map click subscription, the zoom control, and whatever reveal intervals are
currently armed. -/
structure LayerResources where
  clickHandlerAttached : Bool
  zoomControlAttached : Bool
  animTimers : List AnimTimer
deriving DecidableEq

/-- Transcription of the cleanup function returned by the `RouteLayer`
effect (`MapComponent.jsx` lines 123-126): it runs exactly
`map.off('click', handleClick)` and `zoom.remove()`.  No interval is
cleared — the cleanup has no reference to any interval created inside
`fetchRoute`. -/
def effectCleanup (s : LayerResources) : LayerResources :=
  { s with clickHandlerAttached := false, zoomControlAttached := false }

/-- Claim C7 evaluation at its failing input: tearing down while a reveal
interval is mid-animation (0 of 3 points drawn) detaches the click handler
and removes the zoom control, but leaves the interval armed, and its next
firing still writes a point into the rendering target.  This refutes the
claim that no animation timer ever fires again after teardown. -/
theorem c7_cleanup_leaves_timer_armed :
    effectCleanup
        { clickHandlerAttached := true, zoomControlAttached := true,
          animTimers := [{ index := 0, total := 3 }] } =
      { clickHandlerAttached := false, zoomControlAttached := false,
        animTimers := [{ index := 0, total := 3 }] }
    ∧ (effectCleanup
        { clickHandlerAttached := true, zoomControlAttached := true,
          animTimers := [{ index := 0, total := 3 }] }).animTimers ≠ []
    ∧ tickAnimTimer { index := 0, total := 3 } = (some { index := 1, total := 3 }, true) := by
  refine ⟨rfl, ?_, rfl⟩
  decide
